import Mathlib

/-!
Verification of the AgentIQ budget-guarded execution core.

This file gives a shallow embedding of the cost model, usage ledger access,
budget guard and the enhanced orchestrator's task-execution loop
(`src/backend/src/services/token_budget.py`,
`src/backend/src/services/enhanced_orchestrator.py`,
`src/backend/src/agents/orchestrator.py`), and proves or refutes the
specification's claims about them.

Python floats are modelled as rationals (ℚ); token counts as ℕ.  A call to
the Redis backing store that may fail is modelled by an `Except`/`Bool`
parameter.  Exceptions are modelled with `Except`; a `try/except` block is a
`match` on the embedded computation's result.
-/

namespace AgentIQ

/-- A raised Python exception, as observable at the orchestrator boundary.
`tokenBudget` is `TokenBudgetException`, `agentExecution` is
`AgentExecutionException`, `keyError` is a `KeyError` from the agents dict,
`generic` is any other `Exception`. -/
inductive Exc where
  | tokenBudget (msg : String)
  | agentExecution (msg : String)
  | keyError (key : String)
  | generic (msg : String)
deriving DecidableEq, Repr

/-- `str(e)` for an embedded exception: the message it carries. -/
def Exc.message : Exc → String
  | .tokenBudget m => m
  | .agentExecution m => m
  | .keyError k => k
  | .generic m => m

/-- The budget-relevant fields of `Settings` (`src/core/config.py`), with the
defaults given there.  `COST_PER_INPUT_TOKEN`/`COST_PER_OUTPUT_TOKEN` are USD
per 1M tokens. -/
structure Settings where
  TOKEN_BUDGET_DAILY : ℚ := 100
  TOKEN_BUDGET_PER_QUERY : ℚ := 5
  COST_PER_INPUT_TOKEN : ℚ := 15
  COST_PER_OUTPUT_TOKEN : ℚ := 75
  MAX_AGENTS_PER_QUERY : ℕ := 10

/-- `TokenBudgetManager` state established by `__init__`
(`token_budget.py` lines 24–29): budgets, and per-token rates already divided
by 1,000,000. -/
structure TokenBudgetManager where
  daily_budget : ℚ
  per_query_budget : ℚ
  cost_per_input_token : ℚ
  cost_per_output_token : ℚ
deriving DecidableEq, Repr

/-- `TokenBudgetManager.__init__`: the per-million configuration rates are
divided by 1,000,000 once at construction. -/
def TokenBudgetManager.ofSettings (s : Settings) : TokenBudgetManager :=
  { daily_budget := s.TOKEN_BUDGET_DAILY
    per_query_budget := s.TOKEN_BUDGET_PER_QUERY
    cost_per_input_token := s.COST_PER_INPUT_TOKEN / 1000000
    cost_per_output_token := s.COST_PER_OUTPUT_TOKEN / 1000000 }

/-- The outcome of `redis.hget(daily_usage:today, "total_cost")`:
`.error ()` = backing store unreachable (an exception), `.ok none` = no
entry for today, `.ok (some c)` = stored cumulative cost `c`. -/
abbrev LedgerRead := Except Unit (Option ℚ)

/-- `TokenBudgetManager._get_daily_usage` (lines 299–309): today's cumulative
cost; a missing entry reads as `0.0`, and any exception is swallowed and also
reads as `0.0`. -/
def TokenBudgetManager.get_daily_usage_cost (read : LedgerRead) : ℚ :=
  match read with
  | .error _ => 0
  | .ok none => 0
  | .ok (some c) => c

/-- `TokenBudgetManager.check_daily_budget` (lines 31–61): approve iff the
estimate does not exceed `daily_budget - current_usage`. -/
def TokenBudgetManager.check_daily_budget (m : TokenBudgetManager)
    (read : LedgerRead) (estimated_cost : ℚ) : Bool :=
  let current_usage := TokenBudgetManager.get_daily_usage_cost read
  let remaining_budget := m.daily_budget - current_usage
  if remaining_budget < estimated_cost then false else true

/-- `TokenBudgetManager.check_per_query_budget` (lines 63–81): approve iff
the estimate does not exceed the per-query budget. -/
def TokenBudgetManager.check_per_query_budget (m : TokenBudgetManager)
    (estimated_cost : ℚ) : Bool :=
  if m.per_query_budget < estimated_cost then false else true

/-- `TokenBudgetManager.calculate_cost_estimate` (lines 83–102). -/
def TokenBudgetManager.calculate_cost_estimate (m : TokenBudgetManager)
    (input_tokens output_tokens : ℕ) : ℚ :=
  let input_cost := (input_tokens : ℚ) * m.cost_per_input_token
  let output_cost := (output_tokens : ℚ) * m.cost_per_output_token
  input_cost + output_cost

/-- The dictionary returned by `pre_flight_check` / `_pre_flight_agent_check`.
Optional fields model keys present only on some paths. -/
structure BudgetCheck where
  approved : Bool
  estimated_cost : ℚ
  current_daily_usage : Option ℚ := none
  remaining_daily_budget : Option ℚ := none
  budget_usage_percent : Option ℚ := none
  per_query_budget_remaining : Option ℚ := none
  error : Option String := none
deriving DecidableEq, Repr

/-- The `TokenBudgetException`s raised by `pre_flight_check` (lines 131–134
and 140–143), with the figures interpolated into their messages. -/
inductive BudgetError where
  | perQueryExceeded (estimated_cost budget : ℚ)
  | dailyExceeded (estimated_cost remaining : ℚ)
deriving DecidableEq, Repr

/-- `str(e)` for a budget rejection. -/
def BudgetError.message : BudgetError → String
  | .perQueryExceeded _ _ => "Per-query budget exceeded."
  | .dailyExceeded _ _ => "Daily budget exceeded."

/-- `TokenBudgetManager.pre_flight_check` (lines 104–167).
`read` is the ledger state seen by `_get_daily_usage`; `fault` injects a
generic exception raised inside the body (anything other than the
`TokenBudgetException`s it raises itself), which the final handler
(lines 160–167) converts to the fail-open dictionary.
A `TokenBudgetException` is re-raised (lines 158–159): `.error`. -/
def TokenBudgetManager.pre_flight_check (m : TokenBudgetManager)
    (read : LedgerRead) (fault : Option String)
    (input_tokens output_tokens : ℕ) : Except BudgetError BudgetCheck :=
  match fault with
  | some e => .ok { approved := true, estimated_cost := 0, error := some e }
  | none =>
    let estimated_cost := m.calculate_cost_estimate input_tokens output_tokens
    if ¬ m.check_per_query_budget estimated_cost then
      .error (.perQueryExceeded estimated_cost m.per_query_budget)
    else if ¬ m.check_daily_budget read estimated_cost then
      .error (.dailyExceeded estimated_cost
        (m.daily_budget - TokenBudgetManager.get_daily_usage_cost read))
    else
      let current_usage := TokenBudgetManager.get_daily_usage_cost read
      .ok { approved := true
            estimated_cost := estimated_cost
            current_daily_usage := some current_usage
            remaining_daily_budget := some (m.daily_budget - current_usage)
            budget_usage_percent := some (current_usage / m.daily_budget * 100)
            per_query_budget_remaining :=
              some (m.per_query_budget - estimated_cost) }

/-- One task of a plan (`{"task": ..., "agent": ..., "depends_on": [...]}`).
The index of a task is its position in the plan list. -/
structure Task where
  task : String
  agent : String
  depends_on : List ℕ
deriving DecidableEq, Repr

/-- The dependency context for a task
(`{d: results[d] for d in deps if d in results}` — `orchestrator.py` line 35,
`enhanced_orchestrator.py` line 80): the restriction of `completed_results`
to the dependency indices that are already present, in `deps` order. -/
def depContext (results : List (ℕ × String)) (deps : List ℕ) :
    List (ℕ × String) :=
  deps.filterMap (fun d => (results.lookup d).map (fun r => (d, r)))

/-- The text whose length drives input-token estimation
(`f"{task_text}\n\nContext: {context_text}"`, lines 188–190 and 284). -/
def inputText (task_text context_text : String) : String :=
  task_text ++ "\n\nContext: " ++ context_text

/-- Input-token heuristic: character count divided by 4 (integer division),
`enhanced_orchestrator.py` lines 192–193 and 285. -/
def estimateInputTokens (task_text context_text : String) : ℕ :=
  (inputText task_text context_text).length / 4

/-- The static per-agent-type output estimate table
(`enhanced_orchestrator.py` lines 333–339). -/
def agent_estimates : List (String × ℕ) :=
  [("planner", 300), ("web_search", 500), ("data_analysis", 400),
   ("synthesis", 800), ("code_execution", 600)]

/-- `agent_estimates.get(agent_name, 500)` (line 341). -/
def baseEstimate (agent_name : String) : ℕ :=
  (agent_estimates.lookup agent_name).getD 500

/-- `EnhancedAgentOrchestrator._estimate_output_tokens` (lines 321–348):
the table value, scaled by 1.5 (`int(base_estimate * 1.5)`, exact here since
`3 * base` is even for every table or fallback value) when the task
description exceeds 200 characters. -/
def estimateOutputTokens (agent_name : String) (task : Task) : ℕ :=
  let base_estimate := baseEstimate agent_name
  if 200 < task.task.length then base_estimate * 3 / 2 else base_estimate

/-- `EnhancedAgentOrchestrator._pre_flight_agent_check` (lines 169–217):
estimates tokens, calls `pre_flight_check`, and converts ANY exception —
including the `TokenBudgetException` that signals a budget rejection — into
the fail-open dictionary `{approved: True, estimated_cost: 0.0, error: ...}`. -/
def preFlightAgentCheck (m : TokenBudgetManager) (read : LedgerRead)
    (agent_name : String) (task : Task) (context_text : String) : BudgetCheck :=
  let estimated_input_tokens := estimateInputTokens task.task context_text
  let estimated_output_tokens := estimateOutputTokens agent_name task
  match m.pre_flight_check read none estimated_input_tokens
      estimated_output_tokens with
  | .ok b => b
  | .error e =>
    { approved := true, estimated_cost := 0
      error := some (BudgetError.message e) }

/-- One day's entry of the usage ledger (the Redis hash
`daily_usage:{today}`). -/
structure LedgerEntry where
  total_cost : ℚ
  total_tokens : ℕ
  queries_processed : ℕ
deriving DecidableEq, Repr

/-- The all-zero entry an absent day reads as. -/
def LedgerEntry.zero : LedgerEntry :=
  { total_cost := 0, total_tokens := 0, queries_processed := 0 }

/-- `TokenBudgetManager._update_daily_totals` (lines 327–342) on a reachable
store: one atomic pipeline adding `cost`, `tokens` and one processed query. -/
def LedgerEntry.increment (e : LedgerEntry) (cost : ℚ) (tokens : ℕ) :
    LedgerEntry :=
  { total_cost := e.total_cost + cost
    total_tokens := e.total_tokens + tokens
    queries_processed := e.queries_processed + 1 }

/-- A serialized interleaving of `increment` calls: each call is one atomic
step against the store, so any concurrent execution of N callers is some
ordering of the multiset of their `(cost, tokens)` increments. -/
def applyIncrements (e : LedgerEntry) (ops : List (ℚ × ℕ)) : LedgerEntry :=
  ops.foldl (fun a op => a.increment op.1 op.2) e

/-- The `usage_record` dictionary built by `record_usage` (lines 193–203);
timestamp/model fields are omitted as inert. -/
structure UsageRecord where
  query_id : String
  agent_name : String
  input_tokens : ℕ
  output_tokens : ℕ
  total_tokens : ℕ
  cost : ℚ
deriving DecidableEq, Repr

/-- What `record_usage` returns: the usage record, or — only when an
exception reaches `record_usage`'s own body — the `{"error": ...}`
dictionary. -/
inductive UsageResult where
  | record (r : UsageRecord)
  | error (msg : String)
deriving DecidableEq, Repr

/-- `usage_record.get("cost", 0.0)` (`enhanced_orchestrator.py` line 300). -/
def UsageResult.costOrZero : UsageResult → ℚ
  | .record r => r.cost
  | .error _ => 0

/-- `TokenBudgetManager.record_usage` (lines 169–223).  `fault` injects an
exception raised in `record_usage`'s own body, which its handler
(lines 221–223) converts to the error dictionary.  A mere backing-store
failure (`store_available = false`) is swallowed INSIDE
`_store_usage_record` / `_update_daily_totals` (lines 311–342): the record is
still returned with its full cost, only the ledger update is lost. -/
def TokenBudgetManager.record_usage (m : TokenBudgetManager)
    (fault : Option String) (store_available : Bool) (ledger : LedgerEntry)
    (input_tokens output_tokens : ℕ) (agent_name query_id : String) :
    UsageResult × LedgerEntry :=
  match fault with
  | some e => (.error e, ledger)
  | none =>
    let actual_cost := m.calculate_cost_estimate input_tokens output_tokens
    let ledger' :=
      if store_available then
        ledger.increment actual_cost (input_tokens + output_tokens)
      else ledger
    (.record { query_id := query_id, agent_name := agent_name
               input_tokens := input_tokens, output_tokens := output_tokens
               total_tokens := input_tokens + output_tokens
               cost := actual_cost },
     ledger')

/-- Per-query mutable state of `EnhancedAgentOrchestrator.execute`, plus the
day's ledger entry and an instrumentation trace `calls` of every capability
invocation `(task index, agent name)`. -/
structure ExecState where
  results : List (ℕ × String)
  calls : List (ℕ × String)
  current_query_cost : ℚ
  agent_costs : List (String × ℚ)
  ledger : LedgerEntry
deriving DecidableEq, Repr

/-- Python dict assignment `d[k] = v`: replace the binding if present,
else append it. -/
def setCost (k : String) (v : ℚ) : List (String × ℚ) → List (String × ℚ)
  | [] => [(k, v)]
  | (k', v') :: rest =>
    if k' = k then (k, v) :: rest else (k', v') :: setCost k v rest

/-- `EnhancedAgentOrchestrator._record_agent_usage` (lines 266–319): estimate
tokens from the serialized input and result, call `record_usage`, and fold
`usage_record.get("cost", 0.0)` into `agent_costs[agent_name]` and
`current_query_cost`.  Its own handler (lines 313–319) means it never
raises. -/
def recordAgentUsage (m : TokenBudgetManager) (fault : Option String)
    (store_available : Bool) (query_id agent_name : String)
    (task context_text result : String) (st : ExecState) : ExecState :=
  let estimated_input_tokens := estimateInputTokens task context_text
  let estimated_output_tokens := result.length / 4
  let (usage_record, ledger') :=
    m.record_usage fault store_available st.ledger estimated_input_tokens
      estimated_output_tokens agent_name query_id
  let agent_cost := usage_record.costOrZero
  { st with agent_costs := setCost agent_name agent_cost st.agent_costs
            current_query_cost := st.current_query_cost + agent_cost
            ledger := ledger' }

/-- The collaborators and configuration one `execute` call runs against. -/
structure OrchEnv where
  m : TokenBudgetManager
  max_agents : ℕ
  planResult : Except Exc (List Task)
  agents : List String
  agentRun : ℕ → Except Exc String
  synth : List (ℕ × String) → String
  serCtx : List (ℕ × String) → String
  store_available : Bool
  ledger0 : LedgerEntry
  query_id : String

/-- The body of one iteration of the task loop
(`enhanced_orchestrator.py` lines 77–118).  The `KeyError` from
`self.agents[agent_name]` (line 84) is raised outside the inner `try`;
everything inside the inner `try` is wrapped into
`AgentExecutionException("Agent {name} failed: ...")` (lines 108–118).
On error the state reached so far is returned alongside. -/
def execTaskStep (env : OrchEnv) (st : ExecState) (i : ℕ) (task : Task) :
    Except (Exc × ExecState) ExecState :=
  let dep_results := depContext st.results task.depends_on
  let agent_name := task.agent
  if agent_name ∉ env.agents then .error (.keyError agent_name, st)
  else
    let read : LedgerRead :=
      if env.store_available then .ok (some st.ledger.total_cost)
      else .error ()
    let budget_check :=
      preFlightAgentCheck env.m read agent_name task (env.serCtx dep_results)
    if ¬ budget_check.approved then
      .error (.agentExecution
        ("Agent " ++ agent_name ++ " failed: Budget check failed for agent "
          ++ agent_name ++ ": " ++ budget_check.error.getD "Unknown error"),
        st)
    else
      let st1 := { st with calls := st.calls ++ [(i, agent_name)] }
      match env.agentRun i with
      | .error e =>
        .error (.agentExecution
          ("Agent " ++ agent_name ++ " failed: " ++ e.message), st1)
      | .ok result =>
        let st2 := recordAgentUsage env.m none env.store_available
          env.query_id agent_name task.task (env.serCtx dep_results) result st1
        .ok { st2 with results := st2.results ++ [(i, result)] }

/-- The task loop: tasks run strictly in plan order; the first exception
aborts the remaining tasks. -/
def executeTasks (env : OrchEnv) :
    ExecState → List (ℕ × Task) → ExecState × Option Exc
  | st, [] => (st, none)
  | st, (i, t) :: rest =>
    match execTaskStep env st i t with
    | .ok st' => executeTasks env st' rest
    | .error (e, st') => (st', some e)

/-- The dictionary `execute` returns on success (lines 141–154); synthesis is
modelled as a total collaborator. -/
structure QueryOutcome where
  answer : String
  steps : List Task
  intermediate_results : List (ℕ × String)
  total_cost : ℚ
  agent_costs : List (String × ℚ)
deriving Repr

/-- `EnhancedAgentOrchestrator.execute` without its outermost handler
(lines 61–154): plan, validate the task count, run the loop, synthesize. -/
def executeInner (env : OrchEnv) : Except Exc QueryOutcome × ExecState :=
  let st0 : ExecState :=
    { results := [], calls := [], current_query_cost := 0, agent_costs := []
      ledger := env.ledger0 }
  match env.planResult with
  | .error e => (.error e, st0)
  | .ok tasks =>
    if env.max_agents < tasks.length then
      (.error (.agentExecution
        ("Too many agents required: " ++ toString tasks.length ++ " > "
          ++ toString env.max_agents)), st0)
    else
      match executeTasks env st0 tasks.enum with
      | (st, some e) => (.error e, st)
      | (st, none) =>
        (.ok { answer := env.synth st.results, steps := tasks
               intermediate_results := st.results
               total_cost := st.current_query_cost
               agent_costs := st.agent_costs },
         st)

/-- `EnhancedAgentOrchestrator.execute` (lines 46–167): the outermost
`except Exception` (lines 156–167) re-raises every failure as
`AgentExecutionException(f"Query execution failed: {str(e)}")`. -/
def execute (env : OrchEnv) : Except Exc QueryOutcome × ExecState :=
  match executeInner env with
  | (.ok o, st) => (.ok o, st)
  | (.error e, st) =>
    (.error (.agentExecution ("Query execution failed: " ++ e.message)), st)

/-- Whether an embedded computation returned normally (no exception). -/
def exceptIsOk {ε α : Type} : Except ε α → Bool
  | .ok _ => true
  | .error _ => false

/-- A manager configured with a $0.001 per-query budget and the default
rates (the spec's §8 scenario). -/
def demoManager : TokenBudgetManager := ⟨100, 1/1000, 15/1000000, 75/1000000⟩

/-- A single web-search task whose estimate ($0.0376) exceeds the $0.001
per-query budget of `demoManager`. -/
def demoTask : Task := ⟨"search web for X", "web_search", []⟩

/-- A one-task query against `demoManager` with every collaborator healthy. -/
def demoEnv : OrchEnv :=
  { m := demoManager
    max_agents := 10
    planResult := .ok [demoTask]
    agents := ["planner", "web_search", "data_analysis", "synthesis"]
    agentRun := fun _ => .ok "search results"
    synth := fun _ => "final answer"
    serCtx := fun _ => "{}"
    store_available := true
    ledger0 := LedgerEntry.zero
    query_id := "q1" }

/-- The state `demoEnv`'s query ends in: the capability was called once and
its usage recorded. -/
def demoFinalState : ExecState :=
  { results := [(0, "search results")]
    calls := [(0, "web_search")]
    current_query_cost := 33/100000
    agent_costs := [("web_search", 33/100000)]
    ledger := ⟨33/100000, 10, 1⟩ }

/-- The successful outcome `demoEnv`'s query returns. -/
def demoOutcome : QueryOutcome :=
  { answer := "final answer"
    steps := [demoTask]
    intermediate_results := [(0, "search results")]
    total_cost := 33/100000
    agent_costs := [("web_search", 33/100000)] }

/-- A query whose planner collaborator raises. -/
def failPlanEnv : OrchEnv :=
  { m := demoManager
    max_agents := 10
    planResult := .error (.generic "planner down")
    agents := []
    agentRun := fun _ => .ok ""
    synth := fun _ => ""
    serCtx := fun _ => "{}"
    store_available := true
    ledger0 := LedgerEntry.zero
    query_id := "q2" }

/-- C1: whenever the estimated cost exceeds the per-query budget,
`pre_flight_check` rejects with the per-query `TokenBudgetException`
(the `BudgetExceeded` condition), for EVERY ledger state — the per-query cap
is checked independently of, and before, the daily cap. -/
theorem per_query_cap_rejects_independently (m : TokenBudgetManager)
    (read : LedgerRead) (input_tokens output_tokens : ℕ)
    (h : m.per_query_budget <
      m.calculate_cost_estimate input_tokens output_tokens) :
    m.pre_flight_check read none input_tokens output_tokens =
      .error (.perQueryExceeded
        (m.calculate_cost_estimate input_tokens output_tokens)
        m.per_query_budget) := by
  simp [TokenBudgetManager.pre_flight_check,
    TokenBudgetManager.check_per_query_budget, h]

theorem per_query_cap_rejects_independently_witness :
    (⟨100, 1, 1, 2⟩ : TokenBudgetManager).per_query_budget <
      (⟨100, 1, 1, 2⟩ : TokenBudgetManager).calculate_cost_estimate 3 0 ∧
    (⟨100, 1, 1, 2⟩ : TokenBudgetManager).pre_flight_check
        (.ok (some 0)) none 3 0 =
      .error (.perQueryExceeded
        ((⟨100, 1, 1, 2⟩ : TokenBudgetManager).calculate_cost_estimate 3 0)
        1) :=
  ⟨by norm_num [TokenBudgetManager.calculate_cost_estimate],
   per_query_cap_rejects_independently _ _ 3 0
     (by norm_num [TokenBudgetManager.calculate_cost_estimate])⟩

/-- C2: when the estimate is within the per-query cap, `pre_flight_check`
computes `remaining = daily_budget - (today's ledger total_cost)`, rejects
with the daily `TokenBudgetException` exactly when the estimate exceeds that
remainder, and otherwise approves with the observability figures. -/
theorem daily_cap_decides_after_per_query (m : TokenBudgetManager) (c : ℚ)
    (input_tokens output_tokens : ℕ)
    (h : m.calculate_cost_estimate input_tokens output_tokens ≤
      m.per_query_budget) :
    m.pre_flight_check (.ok (some c)) none input_tokens output_tokens =
      (let est := m.calculate_cost_estimate input_tokens output_tokens
       let remaining := m.daily_budget - c
       if remaining < est then .error (.dailyExceeded est remaining)
       else .ok { approved := true, estimated_cost := est
                  current_daily_usage := some c
                  remaining_daily_budget := some remaining
                  budget_usage_percent := some (c / m.daily_budget * 100)
                  per_query_budget_remaining :=
                    some (m.per_query_budget - est) }) := by
  have h1 : ¬ (m.per_query_budget <
      m.calculate_cost_estimate input_tokens output_tokens) := not_lt.mpr h
  by_cases hd : m.daily_budget - c <
      m.calculate_cost_estimate input_tokens output_tokens <;>
    simp [TokenBudgetManager.pre_flight_check,
      TokenBudgetManager.check_per_query_budget,
      TokenBudgetManager.check_daily_budget,
      TokenBudgetManager.get_daily_usage_cost, h1, hd]

theorem daily_cap_decides_after_per_query_witness :
    (⟨10, 5, 1, 1⟩ : TokenBudgetManager).calculate_cost_estimate 2 0 ≤
      (⟨10, 5, 1, 1⟩ : TokenBudgetManager).per_query_budget ∧
    (⟨10, 5, 1, 1⟩ : TokenBudgetManager).pre_flight_check
        (.ok (some 9)) none 2 0 = .error (.dailyExceeded 2 1) := by
  have h : (⟨10, 5, 1, 1⟩ : TokenBudgetManager).calculate_cost_estimate 2 0 ≤
      (⟨10, 5, 1, 1⟩ : TokenBudgetManager).per_query_budget := by
    norm_num [TokenBudgetManager.calculate_cost_estimate]
  refine ⟨h, ?_⟩
  have h2 := daily_cap_decides_after_per_query (⟨10, 5, 1, 1⟩ :
    TokenBudgetManager) 9 2 0 h
  rw [h2]
  norm_num [TokenBudgetManager.calculate_cost_estimate]

/-- C3 counterexample: with the default configuration, when the ledger read
fails (`.error ()`), `pre_flight_check` does NOT return the
`estimated_cost = 0`-with-error fail-open dictionary: it returns a normal
approval carrying the real estimate (39/1000 ≠ 0) and NO attached error,
because the read failure is swallowed inside `_get_daily_usage` as zero
usage. -/
theorem ledger_failure_fail_open_counterexample :
    (TokenBudgetManager.ofSettings {}).pre_flight_check (.error ()) none
        100 500 =
      .ok { approved := true, estimated_cost := 39/1000
            current_daily_usage := some 0
            remaining_daily_budget := some 100
            budget_usage_percent := some 0
            per_query_budget_remaining := some (4961/1000)
            error := none } ∧
    (39/1000 : ℚ) ≠ 0 := by
  constructor
  · norm_num [TokenBudgetManager.ofSettings, TokenBudgetManager.pre_flight_check,
      TokenBudgetManager.calculate_cost_estimate,
      TokenBudgetManager.check_per_query_budget,
      TokenBudgetManager.check_daily_budget,
      TokenBudgetManager.get_daily_usage_cost]
  · norm_num

/-- C3 (amended): the guard never lets an internal error escape, but the two
failure sources behave differently.  A generic exception in the check body
yields the fail-open dictionary `approved = true, estimated_cost = 0` with
the error attached; a LEDGER READ failure is swallowed earlier, inside
`_get_daily_usage`, and is indistinguishable from an empty ledger: the check
proceeds with zero usage and, when it approves, returns the REAL estimate
with no error attached (and it can still reject on either cap). -/
theorem fail_open_behavior_amended (m : TokenBudgetManager)
    (read : LedgerRead) (e : String) (input_tokens output_tokens : ℕ) :
    (m.pre_flight_check read (some e) input_tokens output_tokens =
      .ok { approved := true, estimated_cost := 0, error := some e }) ∧
    (m.pre_flight_check (.error ()) none input_tokens output_tokens =
      m.pre_flight_check (.ok none) none input_tokens output_tokens) ∧
    (m.pre_flight_check (.error ()) none input_tokens output_tokens =
      (let est := m.calculate_cost_estimate input_tokens output_tokens
       if m.per_query_budget < est then
         .error (.perQueryExceeded est m.per_query_budget)
       else if m.daily_budget < est then
         .error (.dailyExceeded est m.daily_budget)
       else .ok { approved := true, estimated_cost := est
                  current_daily_usage := some 0
                  remaining_daily_budget := some m.daily_budget
                  budget_usage_percent := some 0
                  per_query_budget_remaining :=
                    some (m.per_query_budget - est)
                  error := none })) := by
  refine ⟨rfl, rfl, ?_⟩
  by_cases h1 : m.per_query_budget <
      m.calculate_cost_estimate input_tokens output_tokens
  · simp [TokenBudgetManager.pre_flight_check,
      TokenBudgetManager.check_per_query_budget, h1]
  · by_cases h2 : m.daily_budget <
        m.calculate_cost_estimate input_tokens output_tokens <;>
      simp [TokenBudgetManager.pre_flight_check,
        TokenBudgetManager.check_per_query_budget,
        TokenBudgetManager.check_daily_budget,
        TokenBudgetManager.get_daily_usage_cost, h1, h2]

/-- C5: the cost estimate is exactly
`input_tokens * (rate_in / 1,000,000) + output_tokens * (rate_out / 1,000,000)`
with the division performed once at construction, and (for non-negative
configured rates) it is monotone in each argument and jointly homogeneous of
degree 1. -/
theorem calculate_cost_estimate_linear (s : Settings) (a b a' b' k : ℕ)
    (hin : 0 ≤ s.COST_PER_INPUT_TOKEN) (hout : 0 ≤ s.COST_PER_OUTPUT_TOKEN)
    (ha : a ≤ a') (hb : b ≤ b') :
    ((TokenBudgetManager.ofSettings s).calculate_cost_estimate a b =
      (a : ℚ) * (s.COST_PER_INPUT_TOKEN / 1000000) +
        (b : ℚ) * (s.COST_PER_OUTPUT_TOKEN / 1000000)) ∧
    (TokenBudgetManager.ofSettings s).calculate_cost_estimate a b ≤
      (TokenBudgetManager.ofSettings s).calculate_cost_estimate a' b' ∧
    (TokenBudgetManager.ofSettings s).calculate_cost_estimate (k * a) (k * b)
      = (k : ℚ) *
        (TokenBudgetManager.ofSettings s).calculate_cost_estimate a b := by
  refine ⟨rfl, ?_, ?_⟩
  · apply add_le_add
    · exact mul_le_mul_of_nonneg_right (Nat.cast_le.mpr ha)
        (div_nonneg hin (by norm_num))
    · exact mul_le_mul_of_nonneg_right (Nat.cast_le.mpr hb)
        (div_nonneg hout (by norm_num))
  · simp only [TokenBudgetManager.calculate_cost_estimate,
      TokenBudgetManager.ofSettings]
    push_cast
    ring

theorem calculate_cost_estimate_linear_witness :
    0 ≤ ({} : Settings).COST_PER_INPUT_TOKEN ∧
    0 ≤ ({} : Settings).COST_PER_OUTPUT_TOKEN ∧
    (1 : ℕ) ≤ 3 ∧ (2 : ℕ) ≤ 4 ∧
    ((TokenBudgetManager.ofSettings {}).calculate_cost_estimate 1 2 =
      (1 : ℚ) * (({} : Settings).COST_PER_INPUT_TOKEN / 1000000) +
        (2 : ℚ) * (({} : Settings).COST_PER_OUTPUT_TOKEN / 1000000) ∧
    (TokenBudgetManager.ofSettings {}).calculate_cost_estimate 1 2 ≤
      (TokenBudgetManager.ofSettings {}).calculate_cost_estimate 3 4 ∧
    (TokenBudgetManager.ofSettings {}).calculate_cost_estimate (2 * 1) (2 * 2)
      = (2 : ℚ) *
        (TokenBudgetManager.ofSettings {}).calculate_cost_estimate 1 2) :=
  ⟨by norm_num, by norm_num, by norm_num, by norm_num,
   calculate_cost_estimate_linear {} 1 2 3 4 2 (by norm_num) (by norm_num)
     (by norm_num) (by norm_num)⟩

/-- C6: input tokens are the character count of the serialized task
description plus dependency context (joined by the fixed 11-character
`"\n\nContext: "` separator) divided by 4; output tokens come from the static
per-agent table (planner 300, web_search 500, data_analysis 400,
synthesis 800, code_execution 600), unknown agent names fall back to 500,
and the base is scaled by exactly 1.5 precisely when the task description
exceeds 200 characters. -/
theorem token_estimation_heuristics (agent_name : String) (t : Task)
    (context_text : String) :
    (estimateInputTokens t.task context_text =
      (t.task.length + 11 + context_text.length) / 4) ∧
    baseEstimate "planner" = 300 ∧ baseEstimate "web_search" = 500 ∧
    baseEstimate "data_analysis" = 400 ∧ baseEstimate "synthesis" = 800 ∧
    baseEstimate "code_execution" = 600 ∧
    (agent_name ∉ ["planner", "web_search", "data_analysis", "synthesis",
        "code_execution"] →
      baseEstimate agent_name = 500) ∧
    (t.task.length ≤ 200 →
      estimateOutputTokens agent_name t = baseEstimate agent_name) ∧
    (200 < t.task.length →
      2 * estimateOutputTokens agent_name t = 3 * baseEstimate agent_name) := by
  refine ⟨?_, by decide, by decide, by decide, by decide, by decide,
    ?_, ?_, ?_⟩
  · have hsep : ("\n\nContext: " : String).length = 11 := by decide
    simp [estimateInputTokens, inputText, String.length_append, hsep]
  · intro h
    simp only [List.mem_cons, List.not_mem_nil, or_false] at h
    push_neg at h
    obtain ⟨h1, h2, h3, h4, h5⟩ := h
    simp [baseEstimate, agent_estimates, List.lookup,
      beq_eq_false_iff_ne.mpr h1, beq_eq_false_iff_ne.mpr h2,
      beq_eq_false_iff_ne.mpr h3, beq_eq_false_iff_ne.mpr h4,
      beq_eq_false_iff_ne.mpr h5]
  · intro h
    simp [estimateOutputTokens, not_lt.mpr h]
  · intro h
    have heven : 2 ∣ baseEstimate agent_name := by
      unfold baseEstimate agent_estimates
      simp only [List.lookup]
      repeat' split
      all_goals decide
    have h3 : 2 ∣ baseEstimate agent_name * 3 := heven.mul_right 3
    simp only [estimateOutputTokens, if_pos h]
    rw [Nat.mul_div_cancel' h3]
    ring

set_option maxRecDepth 4000 in
theorem token_estimation_heuristics_witness :
    ("data_viz" ∉ ["planner", "web_search", "data_analysis", "synthesis",
        "code_execution"] ∧
      baseEstimate "data_viz" = 500) ∧
    ((⟨"short task", "data_viz", []⟩ : Task).task.length ≤ 200 ∧
      estimateOutputTokens "data_viz" ⟨"short task", "data_viz", []⟩ =
        baseEstimate "data_viz") ∧
    (200 < (⟨String.mk (List.replicate 201 'x'), "synthesis", []⟩ :
        Task).task.length ∧
      2 * estimateOutputTokens "synthesis"
          ⟨String.mk (List.replicate 201 'x'), "synthesis", []⟩ =
        3 * baseEstimate "synthesis") :=
  ⟨⟨by decide,
    (token_estimation_heuristics "data_viz" ⟨"short task", "data_viz", []⟩
      "").2.2.2.2.2.2.1 (by decide)⟩,
   ⟨by decide,
    (token_estimation_heuristics "data_viz" ⟨"short task", "data_viz", []⟩
      "").2.2.2.2.2.2.2.1 (by decide)⟩,
   ⟨by decide,
    (token_estimation_heuristics "synthesis"
      ⟨String.mk (List.replicate 201 'x'), "synthesis", []⟩
      "").2.2.2.2.2.2.2.2 (by decide)⟩⟩

/-- Unfolding of `depContext` on a cons of dependency indices. -/
theorem depContext_cons (results : List (ℕ × String)) (a : ℕ)
    (rest : List ℕ) :
    depContext results (a :: rest) =
      (match results.lookup a with
       | some r => (a, r) :: depContext results rest
       | none => depContext results rest) := by
  simp only [depContext, List.filterMap_cons]
  cases results.lookup a <;> simp

/-- C7: the dependency context handed to a task's agent is exactly the
restriction of `completed_results` to the `depends_on` indices already
present; an absent index is silently omitted (looks up to `none`) and never
raises. -/
theorem dep_context_restriction (results : List (ℕ × String))
    (deps : List ℕ) (d : ℕ) :
    (depContext results deps).lookup d =
      if d ∈ deps then results.lookup d else none := by
  induction deps with
  | nil => simp [depContext]
  | cons a rest ih =>
    rw [depContext_cons]
    by_cases hda : d = a
    · subst hda
      cases hr : results.lookup d with
      | none =>
        rw [ih]
        simp [hr]
      | some r =>
        simp [hr, List.lookup]
    · cases hr : results.lookup a with
      | none =>
        rw [ih]
        simp [hda]
      | some r =>
        have hba : (d == a) = false := beq_eq_false_iff_ne.mpr hda
        simp only [List.lookup, hba]
        rw [ih]
        simp [hda]

/-- C9: one `increment` adds exactly the given cost, token count and one
processed query to the day's entry; and since each `increment` is a single
atomic operation against the store, any interleaving of increments across
concurrent callers is some ordering of them, under which the final totals
equal the exact sums — no ordering loses an update. -/
theorem ledger_increment_no_lost_updates (e : LedgerEntry) (cost : ℚ)
    (tokens : ℕ) (ops ops' : List (ℚ × ℕ)) (hperm : ops.Perm ops') :
    (e.increment cost tokens).total_cost = e.total_cost + cost ∧
    (e.increment cost tokens).total_tokens = e.total_tokens + tokens ∧
    (e.increment cost tokens).queries_processed =
      e.queries_processed + 1 ∧
    (applyIncrements e ops).total_cost =
      e.total_cost + (ops.map Prod.fst).sum ∧
    (applyIncrements e ops).total_tokens =
      e.total_tokens + (ops.map Prod.snd).sum ∧
    (applyIncrements e ops).queries_processed =
      e.queries_processed + ops.length ∧
    applyIncrements e ops' = applyIncrements e ops := by
  have key : ∀ (l : List (ℚ × ℕ)) (a : LedgerEntry),
      applyIncrements a l =
        { total_cost := a.total_cost + (l.map Prod.fst).sum
          total_tokens := a.total_tokens + (l.map Prod.snd).sum
          queries_processed := a.queries_processed + l.length } := by
    intro l
    induction l with
    | nil => intro a; simp [applyIncrements]
    | cons op rest ih =>
      intro a
      have hstep : applyIncrements a (op :: rest) =
          applyIncrements (a.increment op.1 op.2) rest := rfl
      rw [hstep, ih]
      simp [LedgerEntry.increment]
      refine ⟨by ring, by omega, by omega⟩
  refine ⟨rfl, rfl, rfl, by rw [key], by rw [key], by rw [key], ?_⟩
  rw [key, key]
  have hc : (ops'.map Prod.fst).sum = (ops.map Prod.fst).sum :=
    (hperm.map Prod.fst).sum_eq.symm
  have ht : (ops'.map Prod.snd).sum = (ops.map Prod.snd).sum :=
    (hperm.map Prod.snd).sum_eq.symm
  have hl : ops'.length = ops.length := hperm.length_eq.symm
  rw [hc, ht, hl]

theorem ledger_increment_no_lost_updates_witness :
    ([((1 : ℚ), (2 : ℕ)), (3, 4)].Perm [((3 : ℚ), (4 : ℕ)), (1, 2)]) ∧
    ((LedgerEntry.zero.increment 5 6).total_cost =
        LedgerEntry.zero.total_cost + 5 ∧
      (LedgerEntry.zero.increment 5 6).total_tokens =
        LedgerEntry.zero.total_tokens + 6 ∧
      (LedgerEntry.zero.increment 5 6).queries_processed =
        LedgerEntry.zero.queries_processed + 1 ∧
      (applyIncrements LedgerEntry.zero [((1 : ℚ), (2 : ℕ)), (3, 4)]).total_cost
        = LedgerEntry.zero.total_cost +
          ([((1 : ℚ), (2 : ℕ)), (3, 4)].map Prod.fst).sum ∧
      (applyIncrements LedgerEntry.zero
          [((1 : ℚ), (2 : ℕ)), (3, 4)]).total_tokens
        = LedgerEntry.zero.total_tokens +
          ([((1 : ℚ), (2 : ℕ)), (3, 4)].map Prod.snd).sum ∧
      (applyIncrements LedgerEntry.zero
          [((1 : ℚ), (2 : ℕ)), (3, 4)]).queries_processed
        = LedgerEntry.zero.queries_processed +
          [((1 : ℚ), (2 : ℕ)), (3, 4)].length ∧
      applyIncrements LedgerEntry.zero [((3 : ℚ), (4 : ℕ)), (1, 2)] =
        applyIncrements LedgerEntry.zero [((1 : ℚ), (2 : ℕ)), (3, 4)]) :=
  ⟨List.Perm.swap _ _ _,
   ledger_increment_no_lost_updates LedgerEntry.zero 5 6 _ _
     (List.Perm.swap _ _ _)⟩

/-- `setCost` (dict assignment) makes the assigned key read back the
assigned value. -/
theorem lookup_setCost (k : String) (v : ℚ) (l : List (String × ℚ)) :
    (setCost k v l).lookup k = some v := by
  induction l with
  | nil => simp [setCost, List.lookup]
  | cons p rest ih =>
    obtain ⟨k', v'⟩ := p
    by_cases h : k' = k
    · subst h
      simp [setCost, List.lookup]
    · have hba : (k == k') = false := beq_eq_false_iff_ne.mpr (Ne.symm h)
      simp [setCost, h, List.lookup, hba, ih]

/-- C10 counterexample: when the backing store is unreachable during usage
recording, `record_usage` does NOT return an error mapping and the task does
NOT contribute 0.0 — the failure is swallowed deeper, inside
`_store_usage_record`/`_update_daily_totals`, so `record_usage` returns the
full usage record with the actual cost (here 8 ≠ 0), and
`_record_agent_usage` adds that cost to the query's totals; only the ledger
update itself is lost. -/
theorem record_usage_store_failure_counterexample :
    (TokenBudgetManager.record_usage ⟨100, 5, 1, 2⟩ none false
        LedgerEntry.zero 4 2 "web_search" "q1").1 =
      .record ⟨"q1", "web_search", 4, 2, 6, 8⟩ ∧
    (recordAgentUsage ⟨100, 5, 1, 2⟩ none false "q1" "web_search"
        "abcd" "{}" "12345678"
        ⟨[], [], 0, [], LedgerEntry.zero⟩).current_query_cost = 8 ∧
    (8 : ℚ) ≠ 0 := by
  have hin : estimateInputTokens "abcd" "{}" = 4 := by decide
  have hout : ("12345678" : String).length / 4 = 2 := by decide
  refine ⟨?_, ?_, by norm_num⟩
  · norm_num [TokenBudgetManager.record_usage,
      TokenBudgetManager.calculate_cost_estimate]
  · norm_num [recordAgentUsage, hin, hout, TokenBudgetManager.record_usage,
      TokenBudgetManager.calculate_cost_estimate, UsageResult.costOrZero]

/-- C10 (amended): recording a completed task's usage never raises.  An
exception reaching `record_usage`'s own body yields the `{"error": ...}`
mapping, leaves the ledger untouched, and the task then contributes exactly
0.0 to the query's accumulated cost and `agent_costs`; a mere backing-store
failure, however, is swallowed inside the store helpers — `record_usage`
still returns the full record with the actual cost (which IS added to the
query totals) and only the ledger update is lost. -/
theorem record_usage_failure_handling_amended (m : TokenBudgetManager)
    (e : String) (avail : Bool) (ledger : LedgerEntry)
    (input_tokens output_tokens : ℕ) (agent_name query_id : String)
    (task context_text result : String) (st : ExecState) :
    m.record_usage (some e) avail ledger input_tokens output_tokens
        agent_name query_id = (.error e, ledger) ∧
    (m.record_usage none false ledger input_tokens output_tokens
        agent_name query_id).2 = ledger ∧
    (m.record_usage none avail ledger input_tokens output_tokens
        agent_name query_id).1 =
      .record ⟨query_id, agent_name, input_tokens, output_tokens,
        input_tokens + output_tokens,
        m.calculate_cost_estimate input_tokens output_tokens⟩ ∧
    UsageResult.costOrZero (.error e) = 0 ∧
    (recordAgentUsage m (some e) avail query_id agent_name task context_text
        result st).current_query_cost = st.current_query_cost ∧
    (recordAgentUsage m (some e) avail query_id agent_name task context_text
        result st).agent_costs.lookup agent_name = some 0 ∧
    (recordAgentUsage m (some e) avail query_id agent_name task context_text
        result st).ledger = st.ledger := by
  refine ⟨rfl, ?_, rfl, rfl, ?_, ?_, rfl⟩
  · simp [TokenBudgetManager.record_usage]
  · simp [recordAgentUsage, TokenBudgetManager.record_usage,
      UsageResult.costOrZero]
  · simp [recordAgentUsage, TokenBudgetManager.record_usage,
      UsageResult.costOrZero, lookup_setCost]

/-- C4 (code-bug evaluation): with the per-query budget at $0.001 and a task
estimated far above it, the `TokenBudgetException` raised by
`pre_flight_check` is caught by `_pre_flight_agent_check`'s blanket
`except Exception` fail-open handler, which returns `approved = true`; so
the agent capability IS invoked (once, not zero times) and the query
completes successfully instead of failing with `BudgetExceeded`. -/
theorem budget_rejection_swallowed_capability_invoked :
    demoManager.per_query_budget <
      demoManager.calculate_cost_estimate
        (estimateInputTokens demoTask.task "{}")
        (estimateOutputTokens demoTask.agent demoTask) ∧
    (preFlightAgentCheck demoManager (.ok (some 0)) demoTask.agent demoTask
        "{}").approved = true ∧
    execute demoEnv = (.ok demoOutcome, demoFinalState) ∧
    demoFinalState.calls = [(0, "web_search")] := by
  have hin : estimateInputTokens "search web for X" "{}" = 7 := by decide
  have hout : estimateOutputTokens "web_search"
      ⟨"search web for X", "web_search", []⟩ = 500 := by decide
  have hres : ("search results" : String).length / 4 = 3 := by decide
  have hmem : ("web_search" : String) ∈
      ["planner", "web_search", "data_analysis", "synthesis"] := by decide
  have henum : ([⟨"search web for X", "web_search", []⟩] : List Task).enum =
      [(0, ⟨"search web for X", "web_search", []⟩)] := rfl
  refine ⟨?_, ?_, ?_, rfl⟩
  · simp only [demoTask, hin, hout]
    norm_num [TokenBudgetManager.calculate_cost_estimate, demoManager]
  · simp only [demoTask, preFlightAgentCheck, hin, hout]
    norm_num [TokenBudgetManager.pre_flight_check,
      TokenBudgetManager.check_per_query_budget,
      TokenBudgetManager.calculate_cost_estimate, demoManager]
  · simp only [execute, executeInner, executeTasks, execTaskStep, demoEnv,
      demoTask, demoOutcome, demoFinalState, henum, depContext,
      List.filterMap_nil, hmem, preFlightAgentCheck, hin, hout,
      recordAgentUsage, hres, TokenBudgetManager.record_usage,
      UsageResult.costOrZero, setCost, LedgerEntry.increment,
      LedgerEntry.zero, BudgetError.message]
    norm_num [TokenBudgetManager.pre_flight_check,
      TokenBudgetManager.check_per_query_budget,
      TokenBudgetManager.check_daily_budget,
      TokenBudgetManager.get_daily_usage_cost,
      TokenBudgetManager.calculate_cost_estimate, demoManager,
      BudgetError.message]

/-- C8 counterexample: a `PlanningFailed` error is NOT surfaced as a
returned `QueryOutcome` with an empty answer — `execute` re-raises it past
the orchestrator boundary as an `AgentExecutionException`. -/
theorem orchestrator_failure_raised_not_returned_counterexample :
    (execute failPlanEnv).1 =
      .error (.agentExecution "Query execution failed: planner down") ∧
    exceptIsOk (execute failPlanEnv).1 = false := by
  constructor <;> rfl

/-- C8 (amended): every failing query is aborted and surfaced past the
orchestrator boundary as ONE structured failure type: an
`AgentExecutionException` whose message is `"Query execution failed: "`
followed by the underlying error description.  No raw planner fault,
`KeyError`, or `TokenBudgetException` ever crosses the boundary unwrapped —
but the failure IS raised, not returned; the caller-facing response object
(with the error text as its answer) is built by the API layer above this
core. -/
theorem orchestrator_wraps_every_failure (env : OrchEnv) :
    (∃ o st, execute env = (.ok o, st)) ∨
    (∃ msg st, execute env =
      (.error (.agentExecution ("Query execution failed: " ++ msg)), st)) := by
  rcases h : executeInner env with ⟨r, st⟩
  cases r with
  | ok o => exact .inl ⟨o, st, by simp [execute, h]⟩
  | error e => exact .inr ⟨e.message, st, by simp [execute, h]⟩

end AgentIQ
